import Mathlib

set_option linter.unusedVariables false

/-!
Verification of the mercari-bot price-reduction core.

The definitions below are a shallow embedding of the repository's code:

* `src/mercari_bot/logic.py` — `parse_modified_hour`, `get_discount_step`,
  `round_price`.  Python `re.search` of a literal pattern is modelled by
  substring search (`containsSeq`); Python `int("".join(filter(str.isdigit,
  text)))` is modelled by `pyInt (digitsOf text)` over the Unicode digit
  tables (`str.isdigit` accepts Numeric_Type Decimal or Digit; `int` converts
  decimal digits of any script and raises `ValueError` on the empty string or
  on a non-decimal digit).  Python floor division `// 10`
  agrees with Lean's `Int` division `/ 10` because the divisor is positive.
* `src/mercari_bot/mercari_price_down.py` — `_execute_item` becomes
  `execute_item`, a pure function of the page state it reads (`ItemPage`);
  `execute` becomes `mercari_price_down_execute`, driven by an oracle that
  says how each launch attempt of `_execute_once` ends (`OnceResult`).
  `_execute_once` itself only ever returns 0 (success) or -1 (caught
  login/generic error), re-raises `InvalidSessionIdException`, and re-raises
  browser-launch failures; the four `OnceResult` constructors mirror exactly
  those four exits.  The `retryClears` field counts the recreations of the
  browser manager with `clear_profile_on_error=True` that happen before a
  retry (the deletion itself lives in the external `my_lib` package).
* `src/app.py` — `execute` becomes `app_execute`, folding the per-profile
  runs and summing their result codes; `AppResult` records how many profiles
  actually ran, so that an uncaught exception (`ExecResult.raised`) shows up
  as `crashed` with the count of profiles reached.
-/

/-- `DiscountConfig` from `src/mercari_bot/config.py`: one discount rule.
`favorite_count` is the favorite-count threshold, `step` the discount amount,
`threshold` the price floor. -/
structure DiscountConfig where
  favorite_count : Int
  step : Int
  threshold : Int
deriving DecidableEq, Repr

/-- `IntervalConfig` from `src/mercari_bot/config.py`. -/
structure IntervalConfig where
  hour : Int
deriving DecidableEq, Repr

/-- `LineConfig` from `src/mercari_bot/config.py`. -/
structure LineConfig where
  user : String
  password : String
deriving DecidableEq, Repr

/-- `ProfileConfig` from `src/mercari_bot/config.py`. -/
structure ProfileConfig where
  name : String
  user : String
  password : String
  discount : List DiscountConfig
  interval : IntervalConfig
  line : LineConfig
deriving DecidableEq, Repr

/-- The sort key relation used by `get_discount_step`:
`sorted(..., key=lambda x: x.favorite_count, reverse=True)` orders `a` before
`b` when `b.favorite_count ≤ a.favorite_count`. -/
def discGE (a b : DiscountConfig) : Prop :=
  b.favorite_count ≤ a.favorite_count

instance : DecidableRel discGE := fun a b =>
  inferInstanceAs (Decidable (b.favorite_count ≤ a.favorite_count))

instance : IsTotal DiscountConfig discGE :=
  ⟨fun a b => (le_total a.favorite_count b.favorite_count).symm⟩

instance : IsTrans DiscountConfig discGE :=
  ⟨fun _ _ _ h1 h2 => le_trans h2 h1⟩

/-- Python's `sorted(rules, key=lambda x: x.favorite_count, reverse=True)`:
a stable sort, descending on `favorite_count`.  `List.insertionSort` with
`discGE` is stable and places ties in their original relative order, exactly
like CPython's stable sort with `reverse=True`. -/
def sortDiscount (l : List DiscountConfig) : List DiscountConfig :=
  List.insertionSort discGE l

/-- The body of the `for discount_info in sorted(...)` loop of
`get_discount_step` (`src/mercari_bot/logic.py` lines 63-74). -/
def scanDiscount (price favorite_count : Int) : List DiscountConfig → Option Int
  | [] => none
  | d :: rest =>
    if favorite_count ≥ d.favorite_count then
      if price ≥ d.threshold then some d.step else none
    else scanDiscount price favorite_count rest

/-- `get_discount_step` from `src/mercari_bot/logic.py`.  `shipping_fee` is
only used by the source for a log message. -/
def get_discount_step (profile : ProfileConfig) (price shipping_fee favorite_count : Int) :
    Option Int :=
  scanDiscount price favorite_count (sortDiscount profile.discount)

/-- `round_price` from `src/mercari_bot/logic.py`: `(price // 10) * 10`.
Python's floor division coincides with Lean's `Int` division for the positive
divisor 10. -/
def round_price (price : Int) : Int :=
  price / 10 * 10

/-- The two failure modes of `parse_modified_hour`:
`modifiedTimeParseError text` is the `ModifiedTimeParseError(text)` the source
raises when no pattern matches, carrying the offending text; `valueError` is
the `ValueError` Python's `int` raises on an empty digit string. -/
inductive ParseFailure where
  | modifiedTimeParseError (text : String)
  | valueError
deriving DecidableEq, Repr

/-- Starts of the aligned runs of ten Unicode decimal-digit codepoints
(category Nd, Numeric_Type=Decimal): each run holds the digits 0-9 of one
script, the value of a codepoint being its offset from the run start.
Generated from CPython 3.11 (Unicode 14) tables. -/
def decimalRunStarts : List Nat :=
  [48, 1632, 1776, 1984, 2406, 2534, 2662, 2790, 2918, 3046, 3174, 3302,
   3430, 3558, 3664, 3792, 3872, 4160, 4240, 6112, 6160, 6470, 6608, 6784,
   6800, 6992, 7088, 7232, 7248, 42528, 43216, 43264, 43472, 43504, 43600,
   44016, 65296, 66720, 68912, 69734, 69872, 69942, 70096, 70384, 70736,
   70864, 71248, 71360, 71472, 71904, 72016, 72784, 73040, 73120, 92768,
   92864, 93008, 120782, 120792, 120802, 120812, 120822, 123200, 123632,
   125264, 130032]

/-- The decimal value of a character, as Python's `int` converts it: `some k`
exactly when the character is a Unicode decimal digit with value `k` (this is
what `str.isdecimal` accepts — ASCII `'2'` as well as full-width `２`),
`none` otherwise. -/
def pyDecimalVal (c : Char) : Option Nat :=
  (decimalRunStarts.find? (fun s => decide (s ≤ c.toNat ∧ c.toNat < s + 10))).map
    (fun s => c.toNat - s)

/-- The codepoints with Numeric_Type=Digit that are not decimal digits
(superscripts, circled digits, Kharosthi numbers and similar):
`str.isdigit` accepts them but `int` rejects them.  Generated from CPython
3.11 (Unicode 14) tables. -/
def digitOnlyCodes : List Nat :=
  [178, 179, 185, 4969, 4970, 4971, 4972, 4973, 4974, 4975, 4976, 4977,
   6618, 8304, 8308, 8309, 8310, 8311, 8312, 8313, 8320, 8321, 8322, 8323,
   8324, 8325, 8326, 8327, 8328, 8329, 9312, 9313, 9314, 9315, 9316, 9317,
   9318, 9319, 9320, 9332, 9333, 9334, 9335, 9336, 9337, 9338, 9339, 9340,
   9352, 9353, 9354, 9355, 9356, 9357, 9358, 9359, 9360, 9450, 9461, 9462,
   9463, 9464, 9465, 9466, 9467, 9468, 9469, 9471, 10102, 10103, 10104,
   10105, 10106, 10107, 10108, 10109, 10110, 10112, 10113, 10114, 10115,
   10116, 10117, 10118, 10119, 10120, 10122, 10123, 10124, 10125, 10126,
   10127, 10128, 10129, 10130, 68160, 68161, 68162, 68163, 69216, 69217,
   69218, 69219, 69220, 69221, 69222, 69223, 69224, 69714, 69715, 69716,
   69717, 69718, 69719, 69720, 69721, 69722, 127232, 127233, 127234, 127235,
   127236, 127237, 127238, 127239, 127240, 127241, 127242]

/-- Python's `str.isdigit` on one character: true exactly for the characters
with Numeric_Type Decimal or Digit. -/
def pyIsDigit (c : Char) : Bool :=
  (pyDecimalVal c).isSome || digitOnlyCodes.contains c.toNat

/-- `"".join(filter(str.isdigit, text))`: the digit characters of the whole
string, in order. -/
def digitsOf (text : String) : List Char :=
  text.data.filter pyIsDigit

/-- The base-10 value of a list of decimal-digit values, as Python's `int`
reads the joined digit string. -/
def digitsVal (vs : List Nat) : Nat :=
  vs.foldl (fun n d => 10 * n + d) 0

/-- Python `int` applied to the joined digit string: `int("")` raises
`ValueError`, and so does any digit without a decimal value (for example
`int("2²")`); otherwise the decimal values are read in base 10. -/
def pyInt (ds : List Char) : Except ParseFailure Nat :=
  if ds.isEmpty then Except.error ParseFailure.valueError
  else
    match ds.mapM pyDecimalVal with
    | some vs => Except.ok (digitsVal vs)
    | none => Except.error ParseFailure.valueError

/-- Whether the literal pattern `pat` occurs as a contiguous subsequence of
`text` — the effect of `re.search(pat, text)` for the regex-free literal
patterns the source uses. -/
def containsSeq (pat : List Char) : List Char → Bool
  | [] => pat.isEmpty
  | c :: rest => List.isPrefixOf pat (c :: rest) || containsSeq pat rest

/-- `re.search(pat, text) is not None` for a literal pattern. -/
def hasPattern (pat text : String) : Bool :=
  containsSeq pat.data text.data

/-- `parse_modified_hour` from `src/mercari_bot/logic.py` lines 23-46:
precedence-ordered matching of the Japanese relative-time markers, with the
embedded integer taken from all digit characters of the whole string. -/
def parse_modified_hour (text : String) : Except ParseFailure Nat :=
  if hasPattern "秒前" text || hasPattern "分前" text then
    Except.ok 0
  else if hasPattern "時間前" text then
    pyInt (digitsOf text)
  else if hasPattern "日前" text then
    (fun n => n * 24) <$> pyInt (digitsOf text)
  else if hasPattern "か月前" text then
    (fun n => n * 24 * 30) <$> pyInt (digitsOf text)
  else if hasPattern "半年以上前" text then
    Except.ok (24 * 30 * 6)
  else
    Except.error (ParseFailure.modifiedTimeParseError text)

/-- The fields of a `MercariItem` (external `my_lib.store.mercari.config`)
that `_execute_item` reads. -/
structure MercariItem where
  name : String
  price : Int
  favorite : Int
  is_stop : Int
deriving DecidableEq, Repr

/-- The page state `_execute_item` reads through the browser while handling
one listing: the modified-time text, the presence of the timed-sale and
auction controls, the optional shipping-fee display, the `value` attribute of
the price input (`None` when unreadable), and the total price displayed after
the change is submitted and the page reloaded. -/
structure ItemPage where
  modified_text : String
  has_time_sale : Bool
  is_auction_checked : Bool
  shipping_fee_display : Option Int
  price_input_value : Option Int
  displayed_total_after : Int
deriving DecidableEq, Repr

/-- The exceptions `_execute_item` can raise
(`src/mercari_bot/exceptions.py`), plus the propagated time-parse failures. -/
inductive ItemError where
  | parseFailure (e : ParseFailure)
  | priceRetrievalError
  | priceChangedError (expected actual : Int)
  | priceVerificationError (expected actual : Int)
deriving DecidableEq, Repr

deriving instance DecidableEq for Except

/-- The observable outcome of `_execute_item` on one listing: `submitted` is
the price typed into the form and committed with the 変更する button (if the
run reached that point), `result` is the normal/exceptional exit. -/
structure ItemTrace where
  submitted : Option Int
  result : Except ItemError Unit
deriving DecidableEq, Repr

/-- `_execute_item` from `src/mercari_bot/mercari_price_down.py` lines
51-157, as a function of the page state it reads.  Every early `return` of
the source becomes `⟨none, Except.ok ()⟩`; every `raise` becomes an
`Except.error`; the price committed via the 変更する button is recorded in
`submitted`. -/
def execute_item (page : ItemPage) (profile : ProfileConfig) (item : MercariItem)
    (debug_mode : Bool) : ItemTrace :=
  if item.is_stop ≠ 0 then ⟨none, Except.ok ()⟩
  else
    match parse_modified_hour page.modified_text with
    | Except.error e => ⟨none, Except.error (ItemError.parseFailure e)⟩
    | Except.ok modified_hour =>
      if (modified_hour : Int) < profile.interval.hour then ⟨none, Except.ok ()⟩
      else if page.has_time_sale then ⟨none, Except.ok ()⟩
      else if page.is_auction_checked then ⟨none, Except.ok ()⟩
      else
        let shipping_fee : Int := page.shipping_fee_display.getD 0
        let price : Int := item.price - shipping_fee
        match page.price_input_value with
        | none => ⟨none, Except.error ItemError.priceRetrievalError⟩
        | some cur_price =>
          if cur_price ≠ price then
            ⟨none, Except.error (ItemError.priceChangedError price cur_price)⟩
          else
            match get_discount_step profile price shipping_fee item.favorite with
            | none => ⟨none, Except.ok ()⟩
            | some discount_step =>
              let new_price : Int :=
                if debug_mode then price else round_price (price - discount_step)
              if page.displayed_total_after ≠ new_price + shipping_fee then
                ⟨some new_price,
                 Except.error (ItemError.priceVerificationError
                   (new_price + shipping_fee) page.displayed_total_after)⟩
              else ⟨some new_price, Except.ok ()⟩

/-- `_MAX_RETRY_COUNT` from `src/mercari_bot/mercari_price_down.py`. -/
def MAX_RETRY_COUNT : Nat := 1

/-- How one call of `_execute_once` ends, seen from the retry loop of
`execute`: it returns 0 (full success), returns -1 (login or generic error,
caught and reported inside `_execute_once`), raises
`InvalidSessionIdException` (re-raised for retry), or re-raises a
browser-launch failure of another class. -/
inductive OnceResult where
  | ok
  | caughtFail
  | sessionError
  | launchRaise
deriving DecidableEq, Repr

/-- How `execute` itself ends: a returned code, or an exception that no
handler in `execute` catches and that propagates to the caller. -/
inductive ExecResult where
  | returned (code : Int)
  | raised
deriving DecidableEq, Repr

/-- Observable trace of one `execute` call: how many `_execute_once` attempts
ran, how many Slack error notifications were sent from `execute`, how many
times the browser manager was recreated with `clear_profile_on_error=True`
before a retry, and the final exit. -/
structure ExecTrace where
  attempts : Nat
  notifications : Nat
  retryClears : Nat
  result : ExecResult
deriving DecidableEq, Repr

/-- The `for attempt in range(_MAX_RETRY_COUNT + 1)` loop of `execute`
(`src/mercari_bot/mercari_price_down.py` lines 184-213), parameterised by an
oracle `outcome` giving each attempt's `_execute_once` exit.  The empty-list
case is the fall-through `return -1` after the loop. -/
def execLoop (outcome : Nat → OnceResult) (maxRetry : Nat) : List Nat → ExecTrace
  | [] => ⟨0, 0, 0, ExecResult.returned (-1)⟩
  | attempt :: rest =>
    match outcome attempt with
    | OnceResult.ok => ⟨1, 0, 0, ExecResult.returned 0⟩
    | OnceResult.caughtFail => ⟨1, 0, 0, ExecResult.returned (-1)⟩
    | OnceResult.launchRaise => ⟨1, 0, 0, ExecResult.raised⟩
    | OnceResult.sessionError =>
      if attempt < maxRetry then
        let t := execLoop outcome maxRetry rest
        ⟨t.attempts + 1, t.notifications, t.retryClears + 1, t.result⟩
      else ⟨1, 1, 0, ExecResult.returned (-1)⟩

/-- `execute` from `src/mercari_bot/mercari_price_down.py`. -/
def mercari_price_down_execute (outcome : Nat → OnceResult) (maxRetry : Nat) : ExecTrace :=
  execLoop outcome maxRetry (List.range (maxRetry + 1))

/-- How the profile loop of `app.execute` ends: all profiles ran and the
result codes summed to `ret` (`finished ret ran`), or an uncaught exception
ended the loop after `ran` profiles had been attempted (`crashed ran`). -/
inductive AppResult where
  | finished (ret : Int) (ran : Nat)
  | crashed (ran : Nat)
deriving DecidableEq, Repr

/-- The result code `execute` hands back to `app.execute` when it returns. -/
def resultCode : ExecResult → Int
  | ExecResult.returned c => c
  | ExecResult.raised => 0

/-- The `for profile in config.profile` loop of `execute` in `src/app.py`
lines 30-57: each profile's run contributes its returned code to `ret_code`;
an exception that `mercari_price_down.execute` does not catch propagates and
ends the loop. -/
def app_execute (profiles : List (Nat → OnceResult)) (maxRetry : Nat) : AppResult :=
  match profiles with
  | [] => AppResult.finished 0 0
  | o :: rest =>
    match (mercari_price_down_execute o maxRetry).result with
    | ExecResult.raised => AppResult.crashed 1
    | ExecResult.returned c =>
      match app_execute rest maxRetry with
      | AppResult.finished r n => AppResult.finished (c + r) (n + 1)
      | AppResult.crashed n => AppResult.crashed (n + 1)

/-- The rule the loop of `get_discount_step` stops at: the first rule of the
descending-sorted list whose favorite-count threshold the favorite count
meets. -/
def consultedRule (profile : ProfileConfig) (favorite_count : Int) : Option DiscountConfig :=
  (sortDiscount profile.discount).find?
    (fun d => decide (favorite_count ≥ d.favorite_count))

/-- Two rules sharing the favorite-count threshold 5, cheap rule first. -/
def cexProfileA : ProfileConfig :=
  ⟨"p", "u", "w", [⟨5, 100, 1000⟩, ⟨5, 200, 2000⟩], ⟨1⟩, ⟨"lu", "lp"⟩⟩

/-- The same two rules as `cexProfileA`, in the other order. -/
def cexProfileB : ProfileConfig :=
  ⟨"p", "u", "w", [⟨5, 200, 2000⟩, ⟨5, 100, 1000⟩], ⟨1⟩, ⟨"lu", "lp"⟩⟩

/-- A profile whose two rules share the favorite-count threshold 5. -/
def tieProfile : ProfileConfig :=
  ⟨"t", "u", "w", [⟨5, 100, 1000⟩, ⟨5, 200, 2000⟩], ⟨1⟩, ⟨"lu", "lp"⟩⟩

/-- Two rules with distinct favorite-count thresholds, configured order
ascending. -/
def distProfileA : ProfileConfig :=
  ⟨"d", "u", "w", [⟨0, 100, 1000⟩, ⟨10, 200, 3000⟩], ⟨1⟩, ⟨"lu", "lp"⟩⟩

/-- The same two rules as `distProfileA`, in the other order. -/
def distProfileB : ProfileConfig :=
  ⟨"d", "u", "w", [⟨10, 200, 3000⟩, ⟨0, 100, 1000⟩], ⟨1⟩, ⟨"lu", "lp"⟩⟩

/-- A one-rule profile for the per-listing witnesses. -/
def witProfile : ProfileConfig :=
  ⟨"w", "u", "w", [⟨0, 100, 1000⟩], ⟨1⟩, ⟨"lu", "lp"⟩⟩

/-- A listing priced at 5000 with 3 favorites, on display. -/
def witItem : MercariItem :=
  ⟨"item", 5000, 3, 0⟩

/-- A page whose price input reads 5000 (matching the listing) and whose
displayed total after submission is 5000. -/
def witPage : ItemPage :=
  ⟨"3時間前", false, false, none, some 5000, 5000⟩

/-- A page whose price input reads 4990 while the listing price is 5000. -/
def changedPage : ItemPage :=
  ⟨"3時間前", false, false, none, some 4990, 0⟩

/-- The scan of `get_discount_step` consults exactly the first rule whose
favorite-count threshold the favorite count meets. -/
theorem scan_eq_find (price favorite_count : Int) (l : List DiscountConfig) :
    scanDiscount price favorite_count l =
      (match l.find? (fun d => decide (favorite_count ≥ d.favorite_count)) with
       | none => none
       | some d => if price ≥ d.threshold then some d.step else none) := by
  induction l with
  | nil => rfl
  | cons d rest ih =>
    by_cases h : favorite_count ≥ d.favorite_count
    · rw [List.find?_cons_of_pos _ (by simpa using h)]
      simp [scanDiscount, h]
    · rw [List.find?_cons_of_neg _ (by simpa using h)]
      simp only [scanDiscount, if_neg h, ih]

/-- C1: `get_discount_step` sorts the rules by favorite-count threshold
descending (the sorted list is a permutation of the configured rules), scans
them in that order, and consults only the first rule whose threshold is ≤ the
favorite count (inclusive): that rule's step is returned when the price meets
the rule's price floor (inclusive), `none` when the floor is unmet, and
`none` when no rule's threshold is met. -/
theorem c1_get_discount_step_first_match (profile : ProfileConfig)
    (price shipping_fee favorite_count : Int) :
    get_discount_step profile price shipping_fee favorite_count =
      (match (sortDiscount profile.discount).find?
          (fun d => decide (favorite_count ≥ d.favorite_count)) with
       | none => none
       | some d => if price ≥ d.threshold then some d.step else none)
    ∧ List.Sorted discGE (sortDiscount profile.discount)
    ∧ (sortDiscount profile.discount).Perm profile.discount :=
  ⟨scan_eq_find price favorite_count (sortDiscount profile.discount),
   List.sorted_insertionSort discGE profile.discount,
   List.perm_insertionSort discGE profile.discount⟩

/-- C8: `round_price` is idempotent on every integer; on non-negative inputs
it rounds down to a multiple of 10 that is at most 10 less than the input,
and it maps 0 to 0. -/
theorem c8_round_price_props :
    (∀ x : Int, round_price (round_price x) = round_price x)
    ∧ (∀ x : Int, 0 ≤ x →
        round_price x ≤ x ∧ round_price x % 10 = 0 ∧ x - round_price x < 10)
    ∧ round_price 0 = 0 := by
  refine ⟨?_, ?_, rfl⟩
  · intro x
    simp only [round_price]
    omega
  · intro x hx
    simp only [round_price]
    omega

/-- Witness for C8 at x = 4807. -/
theorem c8_round_price_props_wit :
    round_price 4807 ≤ 4807 ∧ round_price 4807 % 10 = 0 ∧ 4807 - round_price 4807 < 10 :=
  c8_round_price_props.2.1 4807 (by decide)

/-- C3: with every attempt raising `InvalidSessionIdException` and retry
budget `_MAX_RETRY_COUNT = 1`, `execute` makes exactly 2 attempts, recreates
the browser manager with the profile cleared exactly once (before the single
retry), returns -1, and sends the error notification exactly once; an
exception of any other class ends the run on its first occurrence, unretried
and uncaught. -/
theorem c3_session_retry_exhaustion :
    mercari_price_down_execute (fun _ => OnceResult.sessionError) MAX_RETRY_COUNT =
      ⟨2, 1, 1, ExecResult.returned (-1)⟩
    ∧ ∀ (outcome : Nat → OnceResult) (maxRetry : Nat),
        outcome 0 = OnceResult.launchRaise →
        mercari_price_down_execute outcome maxRetry = ⟨1, 0, 0, ExecResult.raised⟩ := by
  constructor
  · decide
  · intro outcome maxRetry h
    unfold mercari_price_down_execute
    rw [List.range_succ_eq_map]
    simp [execLoop, h]

/-- Witness for C3: a non-session exception at the first attempt is not
retried. -/
theorem c3_session_retry_exhaustion_wit :
    mercari_price_down_execute (fun _ => OnceResult.launchRaise) 1 =
      ⟨1, 0, 0, ExecResult.raised⟩ :=
  c3_session_retry_exhaustion.2 (fun _ => OnceResult.launchRaise) 1 rfl

/-- C4 counterexample: when the first profile's run ends in a browser-launch
exception (`_execute_once` re-raises it and `execute` only catches
`InvalidSessionIdException`), the exception escapes `app.execute`: only 1 of
the 2 configured profiles runs and no exit code is produced, so the claim
that every per-profile exception is caught at the profile-run boundary fails
at this input. -/
theorem c4_launch_error_uncaught_cex :
    app_execute [fun _ => OnceResult.launchRaise, fun _ => OnceResult.ok] MAX_RETRY_COUNT =
      AppResult.crashed 1
    ∧ ∀ r : Int,
        app_execute [fun _ => OnceResult.launchRaise, fun _ => OnceResult.ok] MAX_RETRY_COUNT ≠
          AppResult.finished r 2 := by
  constructor
  · rfl
  · intro r h
    rw [show app_execute [fun _ => OnceResult.launchRaise, fun _ => OnceResult.ok]
          MAX_RETRY_COUNT = AppResult.crashed 1 from rfl] at h
    exact AppResult.noConfusion h

/-- Each `execute` run either lets an exception propagate or returns 0 or
-1. -/
theorem exec_loop_result_cases (outcome : Nat → OnceResult) (maxRetry : Nat) (l : List Nat) :
    (execLoop outcome maxRetry l).result = ExecResult.raised
    ∨ (execLoop outcome maxRetry l).result = ExecResult.returned 0
    ∨ (execLoop outcome maxRetry l).result = ExecResult.returned (-1) := by
  induction l with
  | nil => simp [execLoop]
  | cons a rest ih =>
    cases h : outcome a
    · simp [execLoop, h]
    · simp [execLoop, h]
    · simp only [execLoop, h]
      split
      · simpa using ih
      · simp
    · simp [execLoop, h]

/-- C4 amended: every per-profile exception other than a browser-launch
failure is caught at the profile-run boundary; whenever no profile's run lets
an exception propagate, all profiles run, each contributes 0 on success and
-1 on failure, and the exit code is the sum of the contributions. -/
theorem c4_profile_sum_amended (profiles : List (Nat → OnceResult)) (maxRetry : Nat)
    (h : ∀ o ∈ profiles, (mercari_price_down_execute o maxRetry).result ≠ ExecResult.raised) :
    app_execute profiles maxRetry =
      AppResult.finished
        ((profiles.map (fun o => resultCode (mercari_price_down_execute o maxRetry).result)).sum)
        profiles.length
    ∧ ∀ o ∈ profiles,
        resultCode (mercari_price_down_execute o maxRetry).result = 0
        ∨ resultCode (mercari_price_down_execute o maxRetry).result = -1 := by
  induction profiles with
  | nil => exact ⟨rfl, by simp⟩
  | cons o rest ih =>
    have ho := h o (List.mem_cons_self o rest)
    obtain ⟨hrest1, hrest2⟩ := ih (fun o2 ho2 => h o2 (List.mem_cons_of_mem _ ho2))
    have hcases : (mercari_price_down_execute o maxRetry).result = ExecResult.raised
        ∨ (mercari_price_down_execute o maxRetry).result = ExecResult.returned 0
        ∨ (mercari_price_down_execute o maxRetry).result = ExecResult.returned (-1) :=
      exec_loop_result_cases o maxRetry (List.range (maxRetry + 1))
    have hz : resultCode (mercari_price_down_execute o maxRetry).result = 0
        ∨ resultCode (mercari_price_down_execute o maxRetry).result = -1 := by
      rcases hcases with hx | hx | hx
      · exact absurd hx ho
      · exact Or.inl (by rw [hx]; rfl)
      · exact Or.inr (by rw [hx]; rfl)
    constructor
    · rcases hcases with hx | hx | hx
      · exact absurd hx ho
      · simp [app_execute, hx, hrest1, resultCode]
      · simp [app_execute, hx, hrest1, resultCode]
    · intro o2 ho2
      rcases List.mem_cons.mp ho2 with rfl | ho3
      · exact hz
      · exact hrest2 o2 ho3

/-- Witness for C4 amended: one succeeding and one failing profile, neither
raising, give exit code -1 with both profiles run. -/
theorem c4_profile_sum_amended_wit :
    app_execute [fun _ => OnceResult.ok, fun _ => OnceResult.caughtFail] MAX_RETRY_COUNT =
      AppResult.finished (-1) 2 := by
  have h := (c4_profile_sum_amended
    [fun _ => OnceResult.ok, fun _ => OnceResult.caughtFail] MAX_RETRY_COUNT
    (by
      intro o ho
      rcases List.mem_cons.mp ho with rfl | ho2
      · decide
      · rcases List.mem_cons.mp ho2 with rfl | ho3
        · decide
        · exact absurd ho3 (List.not_mem_nil o))).1
  rw [h]
  decide

/-- C7 counterexample: with two rules sharing the favorite-count threshold 5,
permuting the rule list changes the result of `get_discount_step` (step 100
versus no discount at price 1500, favorite count 5), so the result is not
independent of the input ordering. -/
theorem c7_order_dependence_cex :
    cexProfileA.discount.Perm cexProfileB.discount
    ∧ get_discount_step cexProfileA 1500 0 5 = some 100
    ∧ get_discount_step cexProfileB 1500 0 5 = none := by
  refine ⟨by decide, by decide, by decide⟩

/-- C7 amended: when the rules' favorite-count thresholds are pairwise
distinct, the result of `get_discount_step` is the same for every permutation
of the rule list. -/
theorem c7_perm_invariant_distinct_thresholds (p1 p2 : ProfileConfig)
    (price shipping_fee favorite_count : Int)
    (hperm : p1.discount.Perm p2.discount)
    (hdist : p1.discount.Pairwise (fun a b => a.favorite_count ≠ b.favorite_count)) :
    get_discount_step p1 price shipping_fee favorite_count =
      get_discount_step p2 price shipping_fee favorite_count := by
  have hsym : ∀ {x y : DiscountConfig},
      x.favorite_count ≠ y.favorite_count → y.favorite_count ≠ x.favorite_count :=
    fun h => h.symm
  have hp1 : (sortDiscount p1.discount).Perm p1.discount :=
    List.perm_insertionSort discGE p1.discount
  have hp2 : (sortDiscount p2.discount).Perm p2.discount :=
    List.perm_insertionSort discGE p2.discount
  have hd1 : (sortDiscount p1.discount).Pairwise
      (fun a b => a.favorite_count ≠ b.favorite_count) :=
    (hp1.pairwise_iff hsym).mpr hdist
  have hd2 : (sortDiscount p2.discount).Pairwise
      (fun a b => a.favorite_count ≠ b.favorite_count) :=
    (hp2.pairwise_iff hsym).mpr ((hperm.pairwise_iff hsym).mp hdist)
  have hlt1 : List.Pairwise (fun a b : DiscountConfig => b.favorite_count < a.favorite_count)
      (sortDiscount p1.discount) :=
    ((List.sorted_insertionSort discGE p1.discount).and hd1).imp
      (fun h => lt_of_le_of_ne h.1 (Ne.symm h.2))
  have hlt2 : List.Pairwise (fun a b : DiscountConfig => b.favorite_count < a.favorite_count)
      (sortDiscount p2.discount) :=
    ((List.sorted_insertionSort discGE p2.discount).and hd2).imp
      (fun h => lt_of_le_of_ne h.1 (Ne.symm h.2))
  haveI : IsAntisymm DiscountConfig
      (fun a b : DiscountConfig => b.favorite_count < a.favorite_count) :=
    ⟨fun a b h1 h2 => absurd (lt_trans h1 h2) (lt_irrefl _)⟩
  have hs : sortDiscount p1.discount = sortDiscount p2.discount :=
    List.eq_of_perm_of_sorted (hp1.trans (hperm.trans hp2.symm)) hlt1 hlt2
  simp only [get_discount_step, hs]

/-- Witness for C7 amended: two distinct-threshold rule lists in opposite
orders give the same discount step. -/
theorem c7_perm_invariant_distinct_thresholds_wit :
    get_discount_step distProfileA 2500 0 2 = get_discount_step distProfileB 2500 0 2 :=
  c7_perm_invariant_distinct_thresholds distProfileA distProfileB 2500 0 2
    (by decide) (by decide)

/-- Inserting a rule with `List.orderedInsert discGE` only skips over rules
with strictly larger favorite-count thresholds, so the sublist of any fixed
threshold value gains the new rule at the front when the thresholds agree and
is untouched otherwise. -/
theorem filter_ordered_insert (a : DiscountConfig) (l : List DiscountConfig) (k : Int) :
    (List.orderedInsert discGE a l).filter (fun e => decide (e.favorite_count = k)) =
      (if a.favorite_count = k then [a] else []) ++
        l.filter (fun e => decide (e.favorite_count = k)) := by
  induction l with
  | nil =>
    by_cases h : a.favorite_count = k <;> simp [List.orderedInsert, h]
  | cons b rest ih =>
    simp only [List.orderedInsert]
    by_cases h : discGE a b
    · by_cases ha : a.favorite_count = k <;> simp [if_pos h, List.filter_cons, ha]
    · have hab : a.favorite_count < b.favorite_count := by
        simp only [discGE, not_le] at h
        exact h
      by_cases hb : b.favorite_count = k
      · have ha : ¬ a.favorite_count = k := by omega
        simp [if_neg h, List.filter_cons, hb, ha, ih]
      · simp [if_neg h, List.filter_cons, hb, ih]

/-- Stability of the descending sort: for each threshold value, the rules
holding it appear in `sortDiscount l` in their original relative order. -/
theorem filter_sort_discount (l : List DiscountConfig) (k : Int) :
    (sortDiscount l).filter (fun e => decide (e.favorite_count = k)) =
      l.filter (fun e => decide (e.favorite_count = k)) := by
  induction l with
  | nil => rfl
  | cons a rest ih =>
    show (List.orderedInsert discGE a (sortDiscount rest)).filter
        (fun e => decide (e.favorite_count = k)) = _
    rw [filter_ordered_insert, ih]
    by_cases ha : a.favorite_count = k <;> simp [List.filter_cons, ha]

/-- If `find?` returns `d` and the predicate holds of every rule sharing
`d`'s threshold, then `d` is the first rule of its threshold in the list. -/
theorem head_filter_of_find (p : DiscountConfig → Bool) (l : List DiscountConfig)
    (d : DiscountConfig) (hf : l.find? p = some d)
    (hk : ∀ e : DiscountConfig, e.favorite_count = d.favorite_count → p e = true) :
    (l.filter (fun e => decide (e.favorite_count = d.favorite_count))).head? = some d := by
  induction l with
  | nil => simp at hf
  | cons a rest ih =>
    by_cases h : p a = true
    · rw [List.find?_cons_of_pos _ h] at hf
      obtain rfl : a = d := by injection hf
      simp [List.filter_cons]
    · rw [List.find?_cons_of_neg _ h] at hf
      have hne : ¬ a.favorite_count = d.favorite_count := fun hc => h (hk a hc)
      simp only [List.filter_cons, hne, decide_eq_true_eq, if_neg hne]
      exact ih hf

/-- C10: when rules share a favorite-count threshold, the rule
`get_discount_step` consults is the one appearing earliest in the profile's
configured order (the descending sort is stable), and the result is the
deterministic function of that rule: its step if the price meets its floor,
`none` otherwise. -/
theorem c10_stable_tie_break (profile : ProfileConfig)
    (price shipping_fee favorite_count : Int) (d : DiscountConfig)
    (h : consultedRule profile favorite_count = some d) :
    (profile.discount.filter
        (fun e => decide (e.favorite_count = d.favorite_count))).head? = some d
    ∧ get_discount_step profile price shipping_fee favorite_count =
        (if price ≥ d.threshold then some d.step else none) := by
  unfold consultedRule at h
  constructor
  · have hd := List.find?_some h
    simp only [decide_eq_true_eq, ge_iff_le] at hd
    have hk : ∀ e : DiscountConfig, e.favorite_count = d.favorite_count →
        decide (favorite_count ≥ e.favorite_count) = true := by
      intro e he
      simp only [decide_eq_true_eq, ge_iff_le] at hd ⊢
      omega
    have hh := head_filter_of_find _ _ _ h hk
    rwa [filter_sort_discount] at hh
  · show scanDiscount price favorite_count (sortDiscount profile.discount) = _
    rw [scan_eq_find, h]

/-- Witness for C10: of two rules tied at threshold 5, the earlier-configured
one (step 100, floor 1000) is consulted. -/
theorem c10_stable_tie_break_wit :
    (tieProfile.discount.filter
        (fun e => decide (e.favorite_count = (DiscountConfig.mk 5 100 1000).favorite_count))).head?
      = some (DiscountConfig.mk 5 100 1000)
    ∧ get_discount_step tieProfile 1500 0 5 =
        (if (1500 : Int) ≥ (DiscountConfig.mk 5 100 1000).threshold
         then some (DiscountConfig.mk 5 100 1000).step else none) :=
  c10_stable_tie_break tieProfile 1500 0 5 (DiscountConfig.mk 5 100 1000) (by decide)

/-- C2: `parse_modified_hour` applies its patterns in precedence order, first
match wins: a seconds-ago or minutes-ago marker yields 0; an hours-ago marker
yields N; a days-ago marker yields N·24; a months-ago marker yields N·24·30;
the half-a-year phrase yields the constant 4320 — N being the integer formed
by concatenating every digit character of the whole string, of any script
(the numeric cases presuppose that N exists: at least one digit, all of them
decimal — the digit-free behavior is C9's subject).  A string matching no
pattern fails with the parse error carrying exactly the offending text. -/
theorem c2_parse_modified_hour_precedence (text : String) :
    (hasPattern "秒前" text = true ∨ hasPattern "分前" text = true →
      parse_modified_hour text = Except.ok 0)
    ∧ (∀ vs : List Nat, hasPattern "秒前" text = false → hasPattern "分前" text = false →
        hasPattern "時間前" text = true → digitsOf text ≠ [] →
        (digitsOf text).mapM pyDecimalVal = some vs →
        parse_modified_hour text = Except.ok (digitsVal vs))
    ∧ (∀ vs : List Nat, hasPattern "秒前" text = false → hasPattern "分前" text = false →
        hasPattern "時間前" text = false → hasPattern "日前" text = true →
        digitsOf text ≠ [] →
        (digitsOf text).mapM pyDecimalVal = some vs →
        parse_modified_hour text = Except.ok (digitsVal vs * 24))
    ∧ (∀ vs : List Nat, hasPattern "秒前" text = false → hasPattern "分前" text = false →
        hasPattern "時間前" text = false → hasPattern "日前" text = false →
        hasPattern "か月前" text = true → digitsOf text ≠ [] →
        (digitsOf text).mapM pyDecimalVal = some vs →
        parse_modified_hour text = Except.ok (digitsVal vs * 24 * 30))
    ∧ (hasPattern "秒前" text = false → hasPattern "分前" text = false →
        hasPattern "時間前" text = false → hasPattern "日前" text = false →
        hasPattern "か月前" text = false → hasPattern "半年以上前" text = true →
        parse_modified_hour text = Except.ok 4320)
    ∧ (hasPattern "秒前" text = false → hasPattern "分前" text = false →
        hasPattern "時間前" text = false → hasPattern "日前" text = false →
        hasPattern "か月前" text = false → hasPattern "半年以上前" text = false →
        parse_modified_hour text =
          Except.error (ParseFailure.modifiedTimeParseError text)) := by
  refine ⟨?_, ?_, ?_, ?_, ?_, ?_⟩
  · rintro (h | h) <;> simp [parse_modified_hour, h]
  · intro vs h1 h2 h3 h4 h5
    have h6 : List.mapM.loop pyDecimalVal (digitsOf text) [] = some vs := h5
    simp [parse_modified_hour, h1, h2, h3, pyInt, List.isEmpty_iff, h4, h6]
  · intro vs h1 h2 h3 h4 h5 h6
    have h7 : List.mapM.loop pyDecimalVal (digitsOf text) [] = some vs := h6
    simp [parse_modified_hour, h1, h2, h3, h4, pyInt, List.isEmpty_iff, h5, h7, Except.map]
  · intro vs h1 h2 h3 h4 h5 h6 h7
    have h8 : List.mapM.loop pyDecimalVal (digitsOf text) [] = some vs := h7
    simp [parse_modified_hour, h1, h2, h3, h4, h5, pyInt, List.isEmpty_iff, h6, h8, Except.map]
  · intro h1 h2 h3 h4 h5 h6
    simp [parse_modified_hour, h1, h2, h3, h4, h5, h6]
  · intro h1 h2 h3 h4 h5 h6
    simp [parse_modified_hour, h1, h2, h3, h4, h5, h6]

/-- Witness for C2 at one concrete string per pattern — including a mixed
ASCII/full-width digit string, where the digits of both scripts contribute to
N — plus the empty string's failure carrying the empty text. -/
theorem c2_parse_modified_hour_precedence_wit :
    parse_modified_hour "30分前" = Except.ok 0
    ∧ parse_modified_hour "23時間前" = Except.ok 23
    ∧ parse_modified_hour "1２時間前" = Except.ok 12
    ∧ parse_modified_hour "2日前" = Except.ok 48
    ∧ parse_modified_hour "3か月前" = Except.ok 2160
    ∧ parse_modified_hour "半年以上前" = Except.ok 4320
    ∧ parse_modified_hour "" = Except.error (ParseFailure.modifiedTimeParseError "") := by
  refine ⟨?_, ?_, ?_, ?_, ?_, ?_, ?_⟩
  · exact (c2_parse_modified_hour_precedence "30分前").1 (Or.inr (by decide))
  · have h := (c2_parse_modified_hour_precedence "23時間前").2.1 [2, 3]
      (by decide) (by decide) (by decide) (by decide) (by decide)
    rwa [show digitsVal [2, 3] = 23 from by decide] at h
  · have h := (c2_parse_modified_hour_precedence "1２時間前").2.1 [1, 2]
      (by decide) (by decide) (by decide) (by decide) (by decide)
    rwa [show digitsVal [1, 2] = 12 from by decide] at h
  · have h := (c2_parse_modified_hour_precedence "2日前").2.2.1 [2]
      (by decide) (by decide) (by decide) (by decide) (by decide) (by decide)
    rwa [show digitsVal [2] * 24 = 48 from by decide] at h
  · have h := (c2_parse_modified_hour_precedence "3か月前").2.2.2.1 [3]
      (by decide) (by decide) (by decide) (by decide) (by decide) (by decide) (by decide)
    rwa [show digitsVal [3] * 24 * 30 = 2160 from by decide] at h
  · exact (c2_parse_modified_hour_precedence "半年以上前").2.2.2.2.1
      (by decide) (by decide) (by decide) (by decide) (by decide) (by decide)
  · exact (c2_parse_modified_hour_precedence "").2.2.2.2.2
      (by decide) (by decide) (by decide) (by decide) (by decide) (by decide)

/-- C9 counterexample: the string 分前日前 contains the days-ago marker and
no digit character, yet the parser returns 0 (the minutes-ago branch matches
first) instead of raising, so the claim's universal statement fails at this
input. -/
theorem c9_marker_without_digits_cex :
    hasPattern "日前" "分前日前" = true
    ∧ digitsOf "分前日前" = []
    ∧ parse_modified_hour "分前日前" = Except.ok 0 := by
  refine ⟨by decide, by decide, by decide⟩

/-- C9 amended: a string that contains an hours-ago, days-ago or months-ago
marker, no seconds-ago or minutes-ago marker, and no digit character makes
`parse_modified_hour` fail with the plain `ValueError` of `int("")`, not with
`ModifiedTimeParseError`; the latter is therefore not its only failure
mode. -/
theorem c9_value_error_amended (text : String)
    (hsec : hasPattern "秒前" text = false) (hmin : hasPattern "分前" text = false)
    (hmark : hasPattern "時間前" text = true ∨ hasPattern "日前" text = true ∨
      hasPattern "か月前" text = true)
    (hdig : digitsOf text = []) :
    parse_modified_hour text = Except.error ParseFailure.valueError := by
  have hpy : pyInt (digitsOf text) = Except.error ParseFailure.valueError := by
    simp [pyInt, hdig]
  by_cases h1 : hasPattern "時間前" text = true
  · simp [parse_modified_hour, hsec, hmin, h1, hpy]
  · have h1f : hasPattern "時間前" text = false := by simpa using h1
    by_cases h2 : hasPattern "日前" text = true
    · simp [parse_modified_hour, hsec, hmin, h1f, h2, hpy, Except.map]
    · have h2f : hasPattern "日前" text = false := by simpa using h2
      have h3 : hasPattern "か月前" text = true := by
        rcases hmark with h | h | h
        · exact absurd h h1
        · exact absurd h h2
        · exact h
      simp [parse_modified_hour, hsec, hmin, h1f, h2f, h3, hpy, Except.map]

/-- Witness for C9 amended at the digit-free string 時間前. -/
theorem c9_value_error_amended_wit :
    parse_modified_hour "時間前" = Except.error ParseFailure.valueError :=
  c9_value_error_amended "時間前" (by decide) (by decide) (Or.inl (by decide)) (by decide)

/-- If `_execute_item` got as far as typing and committing a price, then the
price input agreed with `listing.price - shippingFee`, a discount step was
selected, and the committed price is the unchanged price in debug mode and
the rounded discounted price otherwise. -/
theorem submitted_some (page : ItemPage) (profile : ProfileConfig) (item : MercariItem)
    (debug_mode : Bool) (p : Int)
    (h : (execute_item page profile item debug_mode).submitted = some p) :
    page.price_input_value = some (item.price - page.shipping_fee_display.getD 0)
    ∧ ∃ step : Int,
        get_discount_step profile (item.price - page.shipping_fee_display.getD 0)
          (page.shipping_fee_display.getD 0) item.favorite = some step
        ∧ p = (if debug_mode then item.price - page.shipping_fee_display.getD 0
               else round_price (item.price - page.shipping_fee_display.getD 0 - step)) := by
  simp only [execute_item] at h
  by_cases h0 : item.is_stop ≠ 0
  · simp [h0] at h
  · simp only [h0, if_false, ite_false] at h
    cases hparse : parse_modified_hour page.modified_text with
    | error e => simp [hparse] at h
    | ok mh =>
      simp only [hparse] at h
      by_cases h1 : (mh : Int) < profile.interval.hour
      · simp [h1] at h
      · simp only [h1, if_false, ite_false] at h
        by_cases h2 : page.has_time_sale
        · simp [h2] at h
        · simp only [h2, if_false, ite_false, Bool.false_eq_true] at h
          by_cases h3 : page.is_auction_checked
          · simp [h3] at h
          · simp only [h3, if_false, ite_false, Bool.false_eq_true] at h
            cases hpiv : page.price_input_value with
            | none => simp [hpiv] at h
            | some cur_price =>
              simp only [hpiv] at h
              by_cases h4 : cur_price ≠ item.price - page.shipping_fee_display.getD 0
              · simp [h4] at h
              · have hcp : cur_price = item.price - page.shipping_fee_display.getD 0 := by
                  simpa using h4
                simp only [h4, if_false, ite_false] at h
                cases hstep : get_discount_step profile
                    (item.price - page.shipping_fee_display.getD 0)
                    (page.shipping_fee_display.getD 0) item.favorite with
                | none => simp [hstep] at h
                | some step =>
                  simp only [hstep] at h
                  refine ⟨by rw [hcp], step, rfl, ?_⟩
                  by_cases h5 : page.displayed_total_after ≠
                      (if debug_mode then item.price - page.shipping_fee_display.getD 0
                       else round_price (item.price - page.shipping_fee_display.getD 0 - step))
                      + page.shipping_fee_display.getD 0
                  · rw [if_pos h5] at h
                    exact (Option.some.inj h).symm
                  · rw [if_neg h5] at h
                    exact (Option.some.inj h).symm

/-- C5: in debug mode, whatever price `_execute_item` types and commits
equals the unchanged current price (the value the price input already held),
so no actual price change is submitted; in normal mode the committed price is
`round_price(price - discount_step)` for the selected step. -/
theorem c5_debug_mode_price_unchanged (page : ItemPage) (profile : ProfileConfig)
    (item : MercariItem) :
    (∀ p : Int, (execute_item page profile item true).submitted = some p →
        p = item.price - page.shipping_fee_display.getD 0
        ∧ page.price_input_value = some p)
    ∧ (∀ p : Int, (execute_item page profile item false).submitted = some p →
        ∃ step : Int,
          get_discount_step profile (item.price - page.shipping_fee_display.getD 0)
            (page.shipping_fee_display.getD 0) item.favorite = some step
          ∧ p = round_price (item.price - page.shipping_fee_display.getD 0 - step)) := by
  constructor
  · intro p hp
    obtain ⟨hpiv, step, hstep, hval⟩ := submitted_some page profile item true p hp
    simp at hval
    exact ⟨hval, hval ▸ hpiv⟩
  · intro p hp
    obtain ⟨hpiv, step, hstep, hval⟩ := submitted_some page profile item false p hp
    simp at hval
    exact ⟨step, hstep, hval⟩

/-- Witness for C5: a debug-mode run that reaches submission commits exactly
the current price 5000. -/
theorem c5_debug_mode_price_unchanged_wit :
    (5000 : Int) = witItem.price - witPage.shipping_fee_display.getD 0
    ∧ witPage.price_input_value = some 5000 :=
  (c5_debug_mode_price_unchanged witPage witProfile witItem).1 5000 (by decide)

/-- C6: once the skip checks pass, the effective price is
`listing.price - shippingFee`; an unreadable price input raises
`PriceRetrievalError`; a read value disagreeing with the effective price
raises `PriceChangedError(expected = effective price, actual = read value)`
with nothing submitted yet; and after submission a displayed total differing
from `new_price + shippingFee` raises `PriceVerificationError` carrying both
values. -/
theorem c6_price_error_paths (page : ItemPage) (profile : ProfileConfig) (item : MercariItem)
    (debug_mode : Bool) (mh : Nat)
    (hstop : item.is_stop = 0)
    (hparse : parse_modified_hour page.modified_text = Except.ok mh)
    (hint : ¬((mh : Int) < profile.interval.hour))
    (hsale : page.has_time_sale = false)
    (hauct : page.is_auction_checked = false) :
    (page.price_input_value = none →
      execute_item page profile item debug_mode =
        ⟨none, Except.error ItemError.priceRetrievalError⟩)
    ∧ (∀ v : Int, page.price_input_value = some v →
        v ≠ item.price - page.shipping_fee_display.getD 0 →
        execute_item page profile item debug_mode =
          ⟨none, Except.error (ItemError.priceChangedError
            (item.price - page.shipping_fee_display.getD 0) v)⟩)
    ∧ (∀ step : Int,
        page.price_input_value = some (item.price - page.shipping_fee_display.getD 0) →
        get_discount_step profile (item.price - page.shipping_fee_display.getD 0)
          (page.shipping_fee_display.getD 0) item.favorite = some step →
        page.displayed_total_after ≠
          (if debug_mode then item.price - page.shipping_fee_display.getD 0
           else round_price (item.price - page.shipping_fee_display.getD 0 - step))
          + page.shipping_fee_display.getD 0 →
        execute_item page profile item debug_mode =
          ⟨some (if debug_mode then item.price - page.shipping_fee_display.getD 0
                 else round_price (item.price - page.shipping_fee_display.getD 0 - step)),
           Except.error (ItemError.priceVerificationError
             ((if debug_mode then item.price - page.shipping_fee_display.getD 0
               else round_price (item.price - page.shipping_fee_display.getD 0 - step))
               + page.shipping_fee_display.getD 0)
             page.displayed_total_after)⟩) := by
  refine ⟨?_, ?_, ?_⟩
  · intro hnone
    simp [execute_item, hstop, hparse, hint, hsale, hauct, hnone]
  · intro v hv hne
    simp [execute_item, hstop, hparse, hint, hsale, hauct, hv, hne]
  · intro step hv hstep hne
    simp [execute_item, hstop, hparse, hint, hsale, hauct, hv, hstep, hne]

/-- Witness for C6: a price input reading 4990 against a listing price of
5000 (shipping fee 0) raises `PriceChangedError(expected 5000, actual 4990)`
with nothing submitted. -/
theorem c6_price_error_paths_wit :
    execute_item changedPage witProfile witItem false =
      ⟨none, Except.error (ItemError.priceChangedError
        (witItem.price - changedPage.shipping_fee_display.getD 0) 4990)⟩ :=
  (c6_price_error_paths changedPage witProfile witItem false 3
      (by decide) (by decide) (by decide) rfl rfl).2.1 4990 rfl (by decide)
